import Mathlib

/-!
Shallow embedding of the skadnetwork Go library (mechiru/skadnetwork,
src/skadnetwork.go, current revision: the single-block PEM loader, the
unified `Params.toItems` / `Postback.toItems` canonicalizers and the
version-dispatching `Postback.verify`), together with theorems checking
the natural-language specification against it.

Modelling conventions:
* Go `int` / `int64` become `Int` (only rendered, never overflowed);
  Go `*T` optional fields become `Option T`.
* A Go function that can return `(zero, err)` or panic is modelled as
  `GoResult`: `.ok v` for `(v, nil)`, `.err e` for `(zero, err)`, and
  `.panic` for a runtime panic (nil-pointer dereference).
* The ECDSA-P256/SHA-256 primitive (`crypto/ecdsa` + `crypto/sha256`)
  is an abstract parameter `SigPrimitive`: a signing function (taking an
  explicit randomness argument, possibly failing like `ecdsa.SignASN1`),
  a verification function, a public-key derivation, and the standard
  correctness law of a signature scheme.  Everything the repository
  itself contributes (canonical item order, the U+2063 joiner, base64
  transport, key plumbing, version dispatch, error paths) is modelled
  concretely and executably.
-/

namespace Skadnetwork

/-- Decimal digit character, as Go `strconv` produces for values 0..9. -/
def digitChar (n : Nat) : Char := Char.ofNat (48 + n)

/-- Fuel-driven decimal rendering of a natural number, most significant
digit first; mirrors the digit loop of Go `strconv.FormatInt` base 10. -/
def natDecimalAux : Nat → Nat → List Char
  | 0, _ => []
  | k + 1, n =>
    if n < 10 then [digitChar n]
    else natDecimalAux k (n / 10) ++ [digitChar (n % 10)]

/-- Decimal digits of `n` (enough fuel for every input). -/
def natDecimal (n : Nat) : List Char := natDecimalAux (n + 1) n

/-- Model of Go `strconv.FormatInt _ 10` / `strconv.Itoa`. -/
def formatInt (n : Int) : String :=
  if n < 0 then String.mk ('-' :: natDecimal n.natAbs)
  else String.mk (natDecimal n.natAbs)

/-- Model of Go `strconv.FormatBool`. -/
def formatBool (b : Bool) : String := if b then "true" else "false"

/-- The invisible separator U+2063 between canonical items. -/
def separator : String := "\u2063"

/-- Model of Go `strings.Join items separator`. -/
def joinItems (items : List String) : String := String.intercalate separator items

/-- Lowercase hexadecimal digit, as `encoding/hex` (used by google/uuid). -/
def hexChar (n : Nat) : Char :=
  if n < 10 then Char.ofNat (48 + n) else Char.ofNat (87 + n)

/-- Two lowercase hex digits of one byte. -/
def byteHex (b : Nat) : List Char := [hexChar (b / 16), hexChar (b % 16)]

/-- Model of `uuid.UUID`: sixteen bytes. -/
structure UUID where
  b0 : Nat
  b1 : Nat
  b2 : Nat
  b3 : Nat
  b4 : Nat
  b5 : Nat
  b6 : Nat
  b7 : Nat
  b8 : Nat
  b9 : Nat
  b10 : Nat
  b11 : Nat
  b12 : Nat
  b13 : Nat
  b14 : Nat
  b15 : Nat
deriving DecidableEq

/-- Every field of the UUID is a byte. -/
def UUID.valid (u : UUID) : Prop :=
  u.b0 < 256 ∧ u.b1 < 256 ∧ u.b2 < 256 ∧ u.b3 < 256 ∧
  u.b4 < 256 ∧ u.b5 < 256 ∧ u.b6 < 256 ∧ u.b7 < 256 ∧
  u.b8 < 256 ∧ u.b9 < 256 ∧ u.b10 < 256 ∧ u.b11 < 256 ∧
  u.b12 < 256 ∧ u.b13 < 256 ∧ u.b14 < 256 ∧ u.b15 < 256

instance (u : UUID) : Decidable u.valid := by
  unfold UUID.valid; infer_instance

/-- Model of google/uuid `UUID.String()`: lowercase hyphenated form
`xxxxxxxx-xxxx-xxxx-xxxx-xxxxxxxxxxxx`. -/
def uuidString (u : UUID) : String :=
  String.mk
    (byteHex u.b0 ++ byteHex u.b1 ++ byteHex u.b2 ++ byteHex u.b3 ++
     '-' :: (byteHex u.b4 ++ byteHex u.b5 ++
     '-' :: (byteHex u.b6 ++ byteHex u.b7 ++
     '-' :: (byteHex u.b8 ++ byteHex u.b9 ++
     '-' :: (byteHex u.b10 ++ byteHex u.b11 ++ byteHex u.b12 ++
             byteHex u.b13 ++ byteHex u.b14 ++ byteHex u.b15)))))

/-- Days since 1970-01-01 of a proleptic-Gregorian civil date; models the
calendar arithmetic of Go `time` for a UTC instant. -/
def daysFromCivil (y m d : Int) : Int :=
  let y2 : Int := if m ≤ 2 then y - 1 else y
  let era : Int := (if 0 ≤ y2 then y2 else y2 - 399) / 400
  let yoe : Int := y2 - era * 400
  let doy : Int := (153 * (if 2 < m then m - 3 else m + 9) + 2) / 5 + d - 1
  let doe : Int := yoe * 365 + yoe / 4 - yoe / 100 + doy
  era * 146097 + doe - 719468

/-- Model of `time.Parse(time.RFC3339, "Y-M-DTh:mi:sZ").UnixMilli()`. -/
def rfc3339UTCMillis (y m d h mi s : Int) : Int :=
  (daysFromCivil y m d * 86400 + h * 3600 + mi * 60 + s) * 1000

/-- Character of the standard base64 alphabet at index `n < 64`. -/
def b64char (n : Nat) : Char :=
  if n < 26 then Char.ofNat (65 + n)
  else if n < 52 then Char.ofNat (97 + (n - 26))
  else if n < 62 then Char.ofNat (48 + (n - 52))
  else if n = 62 then '+' else '/'

/-- Index of a character in the standard base64 alphabet. -/
def b64val (c : Char) : Option Nat :=
  let n := c.toNat
  if 65 ≤ n ∧ n ≤ 90 then some (n - 65)
  else if 97 ≤ n ∧ n ≤ 122 then some (n - 97 + 26)
  else if 48 ≤ n ∧ n ≤ 57 then some (n - 48 + 52)
  else if c = '+' then some 62
  else if c = '/' then some 63
  else none

/-- Model of Go `base64.StdEncoding.EncodeToString` on a byte list:
three bytes become four alphabet characters, a short final group is
padded with `=`. -/
def b64EncodeBytes : List Nat → List Char
  | [] => []
  | [a] => [b64char (a / 4), b64char (a % 4 * 16), '=', '=']
  | [a, b] => [b64char (a / 4), b64char (a % 4 * 16 + b / 16), b64char (b % 16 * 4), '=']
  | a :: b :: c :: rest =>
    b64char (a / 4) :: b64char (a % 4 * 16 + b / 16) ::
    b64char (b % 16 * 4 + c / 64) :: b64char (c % 64) :: b64EncodeBytes rest

/-- Byte list to base64 text. -/
def base64EncodeString (bs : List Nat) : String := String.mk (b64EncodeBytes bs)

/-- Quartet-by-quartet base64 decoding: padding `=` is legal only in the
last group, the input length must be a multiple of four, and any
character outside the alphabet is an error — matching Go
`base64.StdEncoding` (which is not strict about unused trailing bits). -/
def b64DecodeGroups : List Char → Option (List Nat)
  | [] => some []
  | c1 :: c2 :: c3 :: c4 :: rest => do
    let v1 ← b64val c1
    let v2 ← b64val c2
    if c3 = '=' then
      if c4 = '=' ∧ rest = [] then some [v1 * 4 + v2 / 16] else none
    else do
      let v3 ← b64val c3
      if c4 = '=' then
        if rest = [] then some [v1 * 4 + v2 / 16, v2 % 16 * 16 + v3 / 4] else none
      else do
        let v4 ← b64val c4
        let tail ← b64DecodeGroups rest
        some ((v1 * 4 + v2 / 16) :: (v2 % 16 * 16 + v3 / 4) :: (v3 % 4 * 64 + v4) :: tail)
  | _ => none

/-- Model of Go `base64.StdEncoding.DecodeString`, which ignores carriage
returns and newlines before decoding. -/
def base64DecodeString (s : String) : Option (List Nat) :=
  b64DecodeGroups (s.data.filter fun c => c != '\r' && c != '\n')

/-- The error values the library returns (each constructor stands for one
`errors.New` / `fmt.Errorf` site of skadnetwork.go). -/
inductive GoError where
  | unsupportedVersion (v : String)
  | signatureDecode (sig : String)
  | signFailure
  | pemNoDataBlock
  | pemTrailingData
  | pemUnexpectedBlockType (t : String)
  | pemBlockParse
  | pemDecodeWrap (e : GoError)
deriving DecidableEq

/-- Outcome of a Go call: a value with nil error, a zero value with an
error, or a runtime panic. -/
inductive GoResult (α : Type) where
  | ok (a : α)
  | err (e : GoError)
  | panic
deriving DecidableEq

/-- Error and panic propagation between Go calls. -/
def GoResult.bind {α β : Type} : GoResult α → (α → GoResult β) → GoResult β
  | .ok a, f => f a
  | .err e, _ => .err e
  | .panic, _ => .panic

/-- Abstract model of the fixed cryptographic configuration (ECDSA over
NIST P-256 on the SHA-256 digest of the message, DER-encoded signature):
`sign sk msg rand` is `ecdsa.SignASN1` (it may fail when the randomness
source fails), `verify pk msg der` is `ecdsa.VerifyASN1` after hashing,
and `pubOf` derives the public key bound to a private scalar, as
`x509.ParseECPrivateKey` does.  The two laws are the correctness of the
scheme: signatures are byte lists and verify under the matching key. -/
structure SigPrimitive where
  pubOf : Nat → Nat
  sign : Nat → String → Nat → Option (List Nat)
  verify : Nat → String → List Nat → Bool
  sign_bytes : ∀ sk msg r der, sign sk msg r = some der → ∀ b ∈ der, b < 256
  sign_verify : ∀ sk msg r der, sign sk msg r = some der → verify (pubOf sk) msg der = true

/-- Abstract handle for Apple's fixed P-256 postback key `pubV3`. -/
def pubV3 : Nat := 0

/-- Model of the package-level `verify(key, items, sig)`: base64-decode
the signature (an error when that fails), join the items with the
invisible separator and check the ECDSA signature over the digest. -/
def cryptoVerify (S : SigPrimitive) (key : Nat) (items : List String) (sig : String) :
    GoResult Bool :=
  match base64DecodeString sig with
  | none => .err (.signatureDecode sig)
  | some der => .ok (S.verify key (joinItems items) der)

/-- Model of the `Params` struct (signing side); `Timestamp` is the
instant's Unix-epoch milliseconds, `FidelityType` the raw integer of the
Go `FidelityType` (an `int` whose named constants are 0 and 1). -/
structure Params where
  Version : String
  AdNetworkID : String
  CampaignID : Int
  ItunesItemID : Int
  Nonce : UUID
  SourceAppStoreID : Int
  FidelityType : Int
  Timestamp : Int
deriving DecidableEq

/-- Model of `Params.toItems`: six fixed leading items, the fidelity item
inserted for versions 2.2 and 3.0 only, the timestamp always last. -/
def Params.toItems (p : Params) : List String :=
  let items := [p.Version, p.AdNetworkID, formatInt p.CampaignID,
    formatInt p.ItunesItemID, uuidString p.Nonce, formatInt p.SourceAppStoreID]
  let items := if p.Version = "2.2" ∨ p.Version = "3.0"
    then items ++ [formatInt p.FidelityType] else items
  items ++ [formatInt p.Timestamp]

/-- Model of the `Postback` struct; the Go nilable pointer fields are
options. -/
structure Postback where
  Version : String
  AdNetworkID : String
  TransactionID : String
  CampaignID : Int
  AppID : Int
  AttributionSignature : String
  Redownload : Option Bool
  SourceAppID : Option Int
  FidelityType : Option Int
  ConversionValue : Option Nat
  DidWin : Option Bool
deriving DecidableEq

/-- Model of `Postback.toItems`.  `strconv.FormatBool(*p.Redownload)`
dereferences the pointer unconditionally, so an absent redownload flag is
a nil-pointer panic; the fidelity item (for 2.2 and 3.0) and the win flag
(for 3.0) likewise panic when their pointers are nil. -/
def Postback.toItems (p : Postback) : GoResult (List String) :=
  match p.Redownload with
  | none => .panic
  | some rd =>
    let base := [p.Version, p.AdNetworkID, formatInt p.CampaignID,
      formatInt p.AppID, p.TransactionID, formatBool rd]
    let base := match p.SourceAppID with
      | some s => base ++ [formatInt s]
      | none => base
    if p.Version = "2.2" then
      match p.FidelityType with
      | none => .panic
      | some f => .ok (base ++ [formatInt f])
    else if p.Version = "3.0" then
      match p.FidelityType, p.DidWin with
      | some f, some w => .ok (base ++ [formatInt f, formatBool w])
      | _, _ => .panic
    else .ok base

/-- Model of `Postback.verify`: versions 2.1, 2.2 and 3.0 canonicalize
and check against Apple's key; any other version tag is an
unsupported-version error. -/
def Postback.verify (S : SigPrimitive) (p : Postback) : GoResult Bool :=
  if p.Version = "2.1" ∨ p.Version = "2.2" ∨ p.Version = "3.0" then
    (Postback.toItems p).bind fun items =>
      cryptoVerify S pubV3 items p.AttributionSignature
  else .err (.unsupportedVersion p.Version)

/-- Model of the older file revision's `Postback.toItems2_1` (fixed
version tag, no fidelity or win item). -/
def Postback.toItems2_1 (p : Postback) : GoResult (List String) :=
  match p.Redownload with
  | none => .panic
  | some rd =>
    let base := ["2.1", p.AdNetworkID, formatInt p.CampaignID,
      formatInt p.AppID, p.TransactionID, formatBool rd]
    match p.SourceAppID with
    | some s => .ok (base ++ [formatInt s])
    | none => .ok base

/-- Model of the older file revision's `Postback.toItems2_2` (fidelity
item appended unconditionally after the optional source-app id). -/
def Postback.toItems2_2 (p : Postback) : GoResult (List String) :=
  match p.Redownload with
  | none => .panic
  | some rd =>
    let base := ["2.2", p.AdNetworkID, formatInt p.CampaignID,
      formatInt p.AppID, p.TransactionID, formatBool rd]
    let base := match p.SourceAppID with
      | some s => base ++ [formatInt s]
      | none => base
    match p.FidelityType with
    | none => .panic
    | some f => .ok (base ++ [formatInt f])

/-- Model of the older file revision's `Postback.toItems3_0` (fidelity
and win-flag items appended last). -/
def Postback.toItems3_0 (p : Postback) : GoResult (List String) :=
  match p.Redownload with
  | none => .panic
  | some rd =>
    let base := ["3.0", p.AdNetworkID, formatInt p.CampaignID,
      formatInt p.AppID, p.TransactionID, formatBool rd]
    let base := match p.SourceAppID with
      | some s => base ++ [formatInt s]
      | none => base
    match p.FidelityType, p.DidWin with
    | some f, some w => .ok (base ++ [formatInt f, formatBool w])
    | _, _ => .panic

/-- Model of a `Signer`: it owns one EC private key (its scalar). -/
structure Signer where
  key : Nat
deriving DecidableEq

/-- Model of `Signer.sign` on an already joined message: ECDSA-sign the
digest with fresh randomness `r`, base64 the DER bytes; a failing
randomness source surfaces as an error. -/
def Signer.signMsg (S : SigPrimitive) (sg : Signer) (msg : String) (r : Nat) :
    GoResult String :=
  match S.sign sg.key msg r with
  | none => .err .signFailure
  | some der => .ok (base64EncodeString der)

/-- Model of `Signer.Sign`: join the canonical items of the parameters
and sign the message. -/
def Signer.Sign (S : SigPrimitive) (sg : Signer) (p : Params) (r : Nat) :
    GoResult String :=
  Signer.signMsg S sg (joinItems (Params.toItems p)) r

/-- Model of `Signer.Verify`: check `sig` over the canonical items of the
parameters against the public half of the signer's key. -/
def Signer.Verify (S : SigPrimitive) (sg : Signer) (p : Params) (sig : String) :
    GoResult Bool :=
  cryptoVerify S (S.pubOf sg.key) (Params.toItems p) sig

/-- Bytes carried by one PEM block, at the granularity x509 parsing
distinguishes: a well-formed SEC1 EC private key for scalar `sk`, a
well-formed PKIX public key, or bytes that parse as neither. -/
inductive KeyBytes where
  | ecPriv (sk : Nat)
  | pkixPub (pk : Nat)
  | bad
deriving DecidableEq

/-- Model of `x509.ParseECPrivateKey`. -/
def parseECPrivateKey : KeyBytes → Option Nat
  | .ecPriv sk => some sk
  | _ => none

/-- One decoded PEM block: its type label and its bytes. -/
structure PemBlock where
  type : String
  bytes : KeyBytes
deriving DecidableEq

/-- PEM input text at the granularity `pem.Decode` observes: the
successive well-formed blocks, and whether non-empty trailing bytes
remain after the last block. -/
structure PemText where
  blocks : List PemBlock
  trailing : Bool
deriving DecidableEq

/-- Model of the current revision's `decodePEM`: decode the first block
(an error when there is none), reject any remaining bytes (a second
block or trailing junk), accept only the `EC PRIVATE KEY` type label,
and parse the block's bytes as an EC private key. -/
def decodePEM (d : PemText) : GoResult Nat :=
  match d.blocks with
  | [] => .err .pemNoDataBlock
  | b :: rest =>
    if rest ≠ [] ∨ d.trailing = true then .err .pemTrailingData
    else if b.type ≠ "EC PRIVATE KEY" then .err (.pemUnexpectedBlockType b.type)
    else match parseECPrivateKey b.bytes with
      | some sk => .ok sk
      | none => .err .pemBlockParse

/-- Model of `NewSigner`: decode the PEM text and wrap any error. -/
def NewSigner (d : PemText) : GoResult Signer :=
  match decodePEM d with
  | .ok sk => .ok ⟨sk⟩
  | .err e => .err (.pemDecodeWrap e)
  | .panic => .panic

/-- The optional canonical item of an optional field: rendered when
present, omitted entirely when absent. -/
def optItem {α : Type} (f : α → String) : Option α → List String
  | some a => [f a]
  | none => []

/-- Spec-side predicate: a decimal digit character. -/
def isDigitChar (c : Char) : Bool := '0' ≤ c && c ≤ '9'

/-- Spec-side predicate: a non-empty digit string without leading zeros. -/
def decimalDigitsOk (l : List Char) : Bool :=
  !l.isEmpty && l.all isDigitChar && (l.head? != some '0' || l == ['0'])

/-- Spec-side predicate: a base-10 ASCII integer, optionally negative,
with no leading zeros or grouping. -/
def isDecimalString (s : String) : Bool :=
  match s.data with
  | [] => false
  | c :: rest => if c = '-' then decimalDigitsOk rest else decimalDigitsOk (c :: rest)

/-- Spec-side predicate: a lowercase hexadecimal digit. -/
def isLowerHexChar (c : Char) : Bool :=
  ('0' ≤ c && c ≤ '9') || ('a' ≤ c && c ≤ 'f')

/-- Spec-side predicate on the character list of a string: the canonical
lowercase hyphenated UUID shape, 8-4-4-4-12 hex digits. -/
def uuidShape : List Char → Bool
  | a1 :: a2 :: a3 :: a4 :: a5 :: a6 :: a7 :: a8 :: h1 ::
    b1 :: b2 :: b3 :: b4 :: h2 :: c1 :: c2 :: c3 :: c4 :: h3 ::
    d1 :: d2 :: d3 :: d4 :: h4 ::
    e1 :: e2 :: e3 :: e4 :: e5 :: e6 :: e7 :: e8 :: e9 :: ea :: eb :: ec :: [] =>
    (h1 == '-') && (h2 == '-') && (h3 == '-') && (h4 == '-') &&
    [a1, a2, a3, a4, a5, a6, a7, a8, b1, b2, b3, b4, c1, c2, c3, c4,
     d1, d2, d3, d4, e1, e2, e3, e4, e5, e6, e7, e8, e9, ea, eb, ec].all isLowerHexChar
  | _ => false

/-- Spec-side predicate: the lowercase canonical hyphenated UUID form. -/
def isUuidForm (s : String) : Bool := uuidShape s.data

/-- A concrete correct signature primitive, used to exhibit the library's
behaviour on closed inputs: the DER bytes of a signature are the one
byte `sk % 256` and verification compares against the matching key. -/
def toySig : SigPrimitive where
  pubOf := id
  sign := fun sk _ _ => some [sk % 256]
  verify := fun pk _ der => der == [pk % 256]
  sign_bytes := by
    intro sk msg r der h b hb
    injection h with h
    subst h
    simp only [List.mem_singleton] at hb
    subst hb
    omega
  sign_verify := by
    intro sk msg r der h
    injection h with h
    subst h
    simp

/-- The nonce of the spec's concrete signing scenario,
`68483ef6-0ada-40df-ab6b-3d19a66330fa`. -/
def exampleNonce : UUID :=
  ⟨0x68, 0x48, 0x3e, 0xf6, 0x0a, 0xda, 0x40, 0xdf,
   0xab, 0x6b, 0x3d, 0x19, 0xa6, 0x63, 0x30, 0xfa⟩

/-- The spec's concrete version-2.2 signing scenario: campaign 42,
product 525463029, source app store id 1234567891, fidelity 1,
timestamp 2022-05-06T10:00:00Z. -/
def exampleParams : Params :=
  ⟨"2.2", "example123.skadnetwork", 42, 525463029, exampleNonce,
   1234567891, 1, rfc3339UTCMillis 2022 5 6 10 0 0⟩

/-- The same parameter set with a version tag outside 2.1/2.2/3.0. -/
def unsupportedParams : Params :=
  ⟨"1.0", "example123.skadnetwork", 42, 525463029, exampleNonce,
   1234567891, 1, rfc3339UTCMillis 2022 5 6 10 0 0⟩

/-- A fully populated version-3.0 postback. -/
def fullPostback : Postback :=
  ⟨"3.0", "example123.skadnetwork", "6aafb7a5-0170-41b5-bbe4-fe71dedf1e28",
   42, 525463029, "sig", some true, some 1234567891, some 1, some 20, some false⟩

/-- A version-2.1 postback whose redownload flag is absent. -/
def noRedownloadPostback : Postback :=
  ⟨"2.1", "com.example", "tx1", 42, 525463029, "sig", none, none, none, none, none⟩

/-- A version-2.2 postback whose fidelity-type field carries the integer
7 (the Go field is a bare `int`, so JSON can populate any value). -/
def fidelitySevenPostback : Postback :=
  ⟨"2.2", "com.example", "tx1", 42, 525463029, "sig", some true, none, some 7, none, none⟩

/-! ### Helper lemmas -/

theorem digitChar_digit : ∀ m, m < 10 → isDigitChar (digitChar m) = true := by decide

theorem digitChar_ne_zero : ∀ m, m < 10 → 1 ≤ m → digitChar m ≠ '0' := by decide

theorem isDigitChar_ne_dash (c : Char) (h : isDigitChar c = true) : c ≠ '-' := by
  intro he
  subst he
  exact absurd h (by decide)

theorem natDecimalAux_ne_nil : ∀ k n, n < k → natDecimalAux k n ≠ [] := by
  intro k
  induction k with
  | zero => intro n h; omega
  | succ k ih =>
    intro n _
    simp only [natDecimalAux]
    split
    · simp
    · simp

theorem natDecimalAux_all_digits :
    ∀ k n, n < k → (natDecimalAux k n).all isDigitChar = true := by
  intro k
  induction k with
  | zero => intro n h; omega
  | succ k ih =>
    intro n hn
    simp only [natDecimalAux]
    split
    · next h => simp [digitChar_digit n h]
    · next h =>
      rw [List.all_append]
      have hrec := ih (n / 10) (by omega)
      have hdig := digitChar_digit (n % 10) (by omega)
      simp [hrec, hdig]

theorem natDecimalAux_head_ne_zero :
    ∀ k n, n < k → 1 ≤ n → (natDecimalAux k n).head? ≠ some '0' := by
  intro k
  induction k with
  | zero => intro n h; omega
  | succ k ih =>
    intro n hn h1
    simp only [natDecimalAux]
    split
    · next h =>
      have := digitChar_ne_zero n h h1
      simp [this]
    · next h =>
      rcases hrec : natDecimalAux k (n / 10) with _ | ⟨x, xs⟩
      · exact absurd hrec (natDecimalAux_ne_nil k (n / 10) (by omega))
      · have hx := ih (n / 10) (by omega) (by omega)
        rw [hrec] at hx
        simp only [List.head?] at hx
        simp [hrec, hx]

theorem decimalDigitsOk_natDecimal (n : Nat) : decimalDigitsOk (natDecimal n) = true := by
  rcases Nat.eq_zero_or_pos n with h0 | h1
  · subst h0; decide
  · unfold decimalDigitsOk natDecimal
    have hne := natDecimalAux_ne_nil (n + 1) n (by omega)
    have hall := natDecimalAux_all_digits (n + 1) n (by omega)
    have hhd := natDecimalAux_head_ne_zero (n + 1) n (by omega) h1
    simp only [Bool.and_eq_true, Bool.or_eq_true]
    refine ⟨⟨?_, hall⟩, Or.inl ?_⟩
    · simp [List.isEmpty_iff, hne]
    · simp [bne_iff_ne, hhd]

theorem isDecimalString_mk_natDecimal (m : Nat) :
    isDecimalString (String.mk (natDecimal m)) = true := by
  rcases hd : natDecimal m with _ | ⟨c, cs⟩
  · exact absurd hd (natDecimalAux_ne_nil _ _ (by omega))
  · have hall : (natDecimal m).all isDigitChar = true :=
      natDecimalAux_all_digits (m + 1) m (by omega)
    rw [hd] at hall
    simp only [List.all_cons, Bool.and_eq_true] at hall
    have hc : c ≠ '-' := isDigitChar_ne_dash c hall.1
    have hok := decimalDigitsOk_natDecimal m
    rw [hd] at hok
    unfold isDecimalString
    show (if c = '-' then decimalDigitsOk cs else decimalDigitsOk (c :: cs)) = true
    rw [if_neg hc]
    exact hok

theorem formatInt_decimal (n : Int) : isDecimalString (formatInt n) = true := by
  unfold formatInt
  split
  · unfold isDecimalString
    rw [show (String.mk ('-' :: natDecimal n.natAbs)).data = '-' :: natDecimal n.natAbs from rfl]
    show (if ('-' : Char) = '-' then decimalDigitsOk (natDecimal n.natAbs)
      else decimalDigitsOk ('-' :: natDecimal n.natAbs)) = true
    rw [if_pos rfl]
    exact decimalDigitsOk_natDecimal n.natAbs
  · exact isDecimalString_mk_natDecimal n.natAbs

theorem b64val_b64char : ∀ n, n < 64 → b64val (b64char n) = some n := by decide

theorem b64char_ne_pad : ∀ n, n < 64 → b64char n ≠ '=' := by decide

theorem b64char_notCRLF :
    ∀ n, n < 64 → (b64char n != '\r' && b64char n != '\n') = true := by decide

theorem b64EncodeBytes_no_crlf :
    ∀ k bs, bs.length ≤ k → (∀ b ∈ bs, b < 256) →
      ∀ c ∈ b64EncodeBytes bs, (c != '\r' && c != '\n') = true := by
  intro k
  induction k with
  | zero =>
    intro bs hl _ c hc
    rcases bs with _ | ⟨a, bs⟩
    · simp [b64EncodeBytes] at hc
    · simp at hl
  | succ k ih =>
    intro bs hl hb c hc
    rcases bs with _ | ⟨a, bs⟩
    · simp [b64EncodeBytes] at hc
    rcases bs with _ | ⟨b, bs⟩
    · have ha : a < 256 := hb a (by simp)
      simp only [b64EncodeBytes, List.mem_cons, List.not_mem_nil, or_false] at hc
      rcases hc with h | h | h | h <;> subst h
      · exact b64char_notCRLF _ (by omega)
      · exact b64char_notCRLF _ (by omega)
      · decide
      · decide
    rcases bs with _ | ⟨d, bs⟩
    · have ha : a < 256 := hb a (by simp)
      have hb2 : b < 256 := hb b (by simp)
      simp only [b64EncodeBytes, List.mem_cons, List.not_mem_nil, or_false] at hc
      rcases hc with h | h | h | h <;> subst h
      · exact b64char_notCRLF _ (by omega)
      · exact b64char_notCRLF _ (by omega)
      · exact b64char_notCRLF _ (by omega)
      · decide
    · have ha : a < 256 := hb a (by simp)
      have hb2 : b < 256 := hb b (by simp)
      have hd2 : d < 256 := hb d (by simp)
      simp only [b64EncodeBytes, List.mem_cons] at hc
      rcases hc with h | h | h | h | h
      · subst h; exact b64char_notCRLF _ (by omega)
      · subst h; exact b64char_notCRLF _ (by omega)
      · subst h; exact b64char_notCRLF _ (by omega)
      · subst h; exact b64char_notCRLF _ (by omega)
      · exact ih bs (by simp at hl; omega) (fun x hx => hb x (by simp [hx])) c h

theorem b64DecodeGroups_encode :
    ∀ k bs, bs.length ≤ k → (∀ b ∈ bs, b < 256) →
      b64DecodeGroups (b64EncodeBytes bs) = some bs := by
  intro k
  induction k with
  | zero =>
    intro bs hl _
    rcases bs with _ | ⟨a, bs⟩
    · rfl
    · simp at hl
  | succ k ih =>
    intro bs hl hb
    rcases bs with _ | ⟨a, bs⟩
    · rfl
    rcases bs with _ | ⟨b, bs⟩
    · have ha : a < 256 := hb a (by simp)
      simp only [b64EncodeBytes, b64DecodeGroups]
      rw [b64val_b64char _ (by omega), b64val_b64char _ (by omega)]
      simp only [Option.bind_eq_bind, Option.some_bind]
      simp only [if_true, and_self, Option.some.injEq, List.cons.injEq, and_true]
      omega
    rcases bs with _ | ⟨d, bs⟩
    · have ha : a < 256 := hb a (by simp)
      have hb2 : b < 256 := hb b (by simp)
      simp only [b64EncodeBytes, b64DecodeGroups]
      rw [b64val_b64char _ (by omega), b64val_b64char _ (by omega)]
      simp only [Option.bind_eq_bind, Option.some_bind]
      rw [if_neg (b64char_ne_pad _ (by omega))]
      rw [b64val_b64char _ (by omega)]
      simp only [Option.some_bind]
      simp only [if_true, and_self, Option.some.injEq, List.cons.injEq, and_true]
      omega
    · have ha : a < 256 := hb a (by simp)
      have hb2 : b < 256 := hb b (by simp)
      have hd2 : d < 256 := hb d (by simp)
      simp only [b64EncodeBytes, b64DecodeGroups]
      rw [b64val_b64char _ (by omega), b64val_b64char _ (by omega)]
      simp only [Option.bind_eq_bind, Option.some_bind]
      rw [if_neg (b64char_ne_pad _ (by omega))]
      rw [b64val_b64char _ (by omega)]
      simp only [Option.some_bind]
      rw [if_neg (b64char_ne_pad _ (by omega))]
      rw [b64val_b64char _ (by omega)]
      simp only [Option.some_bind]
      rw [ih bs (by simp at hl; omega) (fun x hx => hb x (by simp [hx]))]
      simp only [Option.some_bind]
      simp only [Option.some.injEq, List.cons.injEq]
      refine ⟨by omega, by omega, by omega, trivial⟩

theorem base64_roundtrip (der : List Nat) (h : ∀ b ∈ der, b < 256) :
    base64DecodeString (base64EncodeString der) = some der := by
  unfold base64DecodeString base64EncodeString
  rw [show (String.mk (b64EncodeBytes der)).data = b64EncodeBytes der from rfl]
  rw [List.filter_eq_self.mpr (b64EncodeBytes_no_crlf der.length der le_rfl h)]
  exact b64DecodeGroups_encode der.length der le_rfl h

theorem hexChar_lower : ∀ m, m < 16 → isLowerHexChar (hexChar m) = true := by decide

theorem isUuidForm_uuidString (u : UUID) (h : u.valid) : isUuidForm (uuidString u) = true := by
  obtain ⟨h0, h1, h2, h3, h4, h5, h6, h7, h8, h9, h10, h11, h12, h13, h14, h15⟩ := h
  unfold isUuidForm uuidString byteHex
  simp only [List.cons_append, List.nil_append]
  show uuidShape _ = true
  unfold uuidShape
  simp only [List.all_cons, List.all_nil, Bool.and_eq_true, beq_self_eq_true, true_and, and_true]
  repeat' apply And.intro
  all_goals exact hexChar_lower _ (by omega)

/-- The older revision's `toItems2_1` agrees with the unified
canonicalizer on version-2.1 postbacks. -/
theorem toItems2_1_eq (p : Postback) (h : p.Version = "2.1") :
    Postback.toItems2_1 p = Postback.toItems p := by
  rcases hrd : p.Redownload with _ | rd
  · simp [Postback.toItems, Postback.toItems2_1, hrd]
  · rcases hsrc : p.SourceAppID with _ | s <;>
      simp [Postback.toItems, Postback.toItems2_1, hrd, hsrc, h]

/-- The older revision's `toItems2_2` agrees with the unified
canonicalizer on version-2.2 postbacks. -/
theorem toItems2_2_eq (p : Postback) (h : p.Version = "2.2") :
    Postback.toItems2_2 p = Postback.toItems p := by
  rcases hrd : p.Redownload with _ | rd
  · simp [Postback.toItems, Postback.toItems2_2, hrd]
  · rcases hfid : p.FidelityType with _ | f <;>
      rcases hsrc : p.SourceAppID with _ | s <;>
        simp [Postback.toItems, Postback.toItems2_2, hrd, hfid, hsrc, h]

/-- The older revision's `toItems3_0` agrees with the unified
canonicalizer on version-3.0 postbacks. -/
theorem toItems3_0_eq (p : Postback) (h : p.Version = "3.0") :
    Postback.toItems3_0 p = Postback.toItems p := by
  rcases hrd : p.Redownload with _ | rd
  · simp [Postback.toItems, Postback.toItems3_0, hrd]
  · rcases hfid : p.FidelityType with _ | f <;>
      rcases hwin : p.DidWin with _ | w <;>
        rcases hsrc : p.SourceAppID with _ | s <;>
          simp [Postback.toItems, Postback.toItems3_0, hrd, hfid, hwin, hsrc, h]

/-! ### Claim theorems -/

/-- Claim C1: for every postback whose version tag is 2.1, 2.2 or 3.0,
the canonical item sequence starts with exactly version, ad-network id,
campaign id, app id, transaction id, redownload in that order; the
source-app-id item is appended next exactly when the field is present;
the fidelity item is appended after it exactly when the version is 2.2
or 3.0; and the win-flag item is appended last exactly when the version
is 3.0. -/
theorem postback_canonical_order (p : Postback) (rd : Bool)
    (hv : p.Version = "2.1" ∨ p.Version = "2.2" ∨ p.Version = "3.0")
    (hrd : p.Redownload = some rd)
    (hf : (p.Version = "2.2" ∨ p.Version = "3.0") → p.FidelityType.isSome = true)
    (hw : p.Version = "3.0" → p.DidWin.isSome = true) :
    Postback.toItems p = .ok
      ([p.Version, p.AdNetworkID, formatInt p.CampaignID, formatInt p.AppID,
        p.TransactionID, formatBool rd]
       ++ optItem formatInt p.SourceAppID
       ++ (if p.Version = "2.2" ∨ p.Version = "3.0"
            then optItem formatInt p.FidelityType else [])
       ++ (if p.Version = "3.0" then optItem formatBool p.DidWin else [])) := by
  rcases hv with hv | hv | hv
  · rcases hsrc : p.SourceAppID with _ | s <;>
      simp [Postback.toItems, optItem, hv, hrd, hsrc]
  · have hfi := hf (Or.inl hv)
    rcases hfid : p.FidelityType with _ | f
    · rw [hfid] at hfi; simp at hfi
    · rcases hsrc : p.SourceAppID with _ | s <;>
        simp [Postback.toItems, optItem, hv, hrd, hfid, hsrc]
  · have hfi := hf (Or.inr hv)
    have hwi := hw hv
    rcases hfid : p.FidelityType with _ | f
    · rw [hfid] at hfi; simp at hfi
    rcases hwin : p.DidWin with _ | w
    · rw [hwin] at hwi; simp at hwi
    rcases hsrc : p.SourceAppID with _ | s <;>
      simp [Postback.toItems, optItem, hv, hrd, hfid, hwin, hsrc]

/-- Witness for C1 at a fully populated 3.0 postback. -/
theorem postback_canonical_order_witness :
    Postback.toItems fullPostback = .ok
      ["3.0", "example123.skadnetwork", "42", "525463029",
       "6aafb7a5-0170-41b5-bbe4-fe71dedf1e28", "true", "1234567891", "1", "false"] :=
  postback_canonical_order fullPostback true (by decide) (by decide)
    (by decide) (by decide)

/-- Claim C2 (corrected): the spec's concrete 2.2 signing scenario
canonicalizes to the eight claimed items joined by U+2063 — except that
the timestamp 2022-05-06T10:00:00Z renders as "1651831200000", not the
"1651824000000" the spec states (that value is 2022-05-06T08:00:00Z). -/
theorem params_canonicalization_2_2 :
    Params.toItems exampleParams =
      ["2.2", "example123.skadnetwork", "42", "525463029",
       "68483ef6-0ada-40df-ab6b-3d19a66330fa", "1234567891", "1", "1651831200000"] ∧
    joinItems (Params.toItems exampleParams) =
      "2.2\u2063example123.skadnetwork\u206342\u2063525463029\u206368483ef6-0ada-40df-ab6b-3d19a66330fa\u20631234567891\u20631\u20631651831200000" := by
  constructor
  · decide
  · decide

/-- Counterexample for C2 as stated: the joined canonical string of the
scenario is not the spec's claimed string (their timestamp items
differ). -/
theorem params_canonicalization_2_2_counterexample :
    joinItems (Params.toItems exampleParams) ≠
      "2.2\u2063example123.skadnetwork\u206342\u2063525463029\u206368483ef6-0ada-40df-ab6b-3d19a66330fa\u20631234567891\u20631\u20631651824000000" := by
  decide

/-- Claim C8: two postbacks identical except that one omits the
source-app-id field canonicalize to sequences that differ exactly by the
source-app-id item at position 6; all other items keep their relative
order. -/
theorem postback_source_item_removal (p : Postback) (s : Int) (l1 l2 : List String)
    (hv : p.Version = "2.1" ∨ p.Version = "2.2" ∨ p.Version = "3.0")
    (hs : p.SourceAppID = some s)
    (h1 : Postback.toItems p = .ok l1)
    (h2 : Postback.toItems {p with SourceAppID := none} = .ok l2) :
    l1 = l2.take 6 ++ formatInt s :: l2.drop 6 := by
  rcases hrd : p.Redownload with _ | rd
  · simp [Postback.toItems, hrd] at h1
  rcases hv with hv | hv | hv
  · simp [Postback.toItems, hv, hrd, hs] at h1 h2
    subst h1
    subst h2
    rfl
  · rcases hfid : p.FidelityType with _ | f
    · simp [Postback.toItems, hv, hrd, hs, hfid] at h1
    · simp [Postback.toItems, hv, hrd, hs, hfid] at h1 h2
      subst h1
      subst h2
      rfl
  · rcases hfid : p.FidelityType with _ | f
    · simp [Postback.toItems, hv, hrd, hs, hfid] at h1
    rcases hwin : p.DidWin with _ | w
    · simp [Postback.toItems, hv, hrd, hs, hfid, hwin] at h1
    · simp [Postback.toItems, hv, hrd, hs, hfid, hwin] at h1 h2
      subst h1
      subst h2
      rfl

/-- Witness for C8 at the fully populated 3.0 postback and its
source-app-id-free variant. -/
theorem postback_source_item_removal_witness :
    (["3.0", "example123.skadnetwork", "42", "525463029",
      "6aafb7a5-0170-41b5-bbe4-fe71dedf1e28", "true", "1234567891", "1", "false"] :
        List String) =
      (["3.0", "example123.skadnetwork", "42", "525463029",
        "6aafb7a5-0170-41b5-bbe4-fe71dedf1e28", "true", "1", "false"] : List String).take 6 ++
        formatInt 1234567891 ::
        (["3.0", "example123.skadnetwork", "42", "525463029",
          "6aafb7a5-0170-41b5-bbe4-fe71dedf1e28", "true", "1", "false"] : List String).drop 6 :=
  postback_source_item_removal fullPostback 1234567891 _ _
    (by decide) (by decide) (by decide) (by decide)

/-- Claim C10: the conversion value never enters the canonical item
sequence: postbacks differing only in `ConversionValue` canonicalize and
verify identically. -/
theorem conversion_value_ignored (S : SigPrimitive) (p : Postback) (v w : Option Nat) :
    Postback.toItems { p with ConversionValue := v } =
      Postback.toItems { p with ConversionValue := w } ∧
    Postback.verify S { p with ConversionValue := v } =
      Postback.verify S { p with ConversionValue := w } :=
  ⟨rfl, rfl⟩

/-- Claim C3 (corrected): postback verification fails with an
unsupported-version error for every version tag outside 2.1/2.2/3.0, but
the signing-side entry points apply no version gate at all: `Sign` can
only fail with a signing error, `Verify` only with a signature-decode
error, and `Params.toItems` canonicalizes any other version tag with the
fidelity-free layout. -/
theorem version_gating :
    (∀ (S : SigPrimitive) (p : Postback),
      p.Version ≠ "2.1" → p.Version ≠ "2.2" → p.Version ≠ "3.0" →
      Postback.verify S p = .err (.unsupportedVersion p.Version)) ∧
    (∀ (S : SigPrimitive) (sg : Signer) (p : Params) (r : Nat) (e : GoError),
      Signer.Sign S sg p r = .err e → e = .signFailure) ∧
    (∀ (S : SigPrimitive) (sg : Signer) (p : Params) (sig : String) (e : GoError),
      Signer.Verify S sg p sig = .err e → e = .signatureDecode sig) ∧
    (∀ p : Params, p.Version ≠ "2.2" → p.Version ≠ "3.0" →
      Params.toItems p =
        [p.Version, p.AdNetworkID, formatInt p.CampaignID, formatInt p.ItunesItemID,
         uuidString p.Nonce, formatInt p.SourceAppStoreID, formatInt p.Timestamp]) := by
  refine ⟨?_, ?_, ?_, ?_⟩
  · intro S p h1 h2 h3
    unfold Postback.verify
    rw [if_neg (by simp [h1, h2, h3])]
  · intro S sg p r e h
    unfold Signer.Sign Signer.signMsg at h
    rcases hs : S.sign sg.key (joinItems (Params.toItems p)) r with _ | der
    · rw [hs] at h
      injection h with h
      exact h.symm
    · rw [hs] at h
      simp at h
  · intro S sg p sig e h
    unfold Signer.Verify cryptoVerify at h
    rcases hd : base64DecodeString sig with _ | der
    · rw [hd] at h
      injection h with h
      exact h.symm
    · rw [hd] at h
      simp at h
  · intro p h2 h3
    simp [Params.toItems, h2, h3]

/-- Counterexample for C3 as stated: on a parameter set with version tag
"1.0" (outside 2.1/2.2/3.0), signing succeeds, verification of the
produced signature succeeds, and canonicalization produces the
fidelity-free seven-item layout — none of them fails with an
unsupported-version error. -/
theorem version_gating_counterexample :
    Signer.Sign toySig ⟨5⟩ unsupportedParams 0 = .ok "BQ==" ∧
    Signer.Verify toySig ⟨5⟩ unsupportedParams "BQ==" = .ok true ∧
    Params.toItems unsupportedParams =
      ["1.0", "example123.skadnetwork", "42", "525463029",
       "68483ef6-0ada-40df-ab6b-3d19a66330fa", "1234567891", "1651831200000"] := by
  refine ⟨by decide, by decide, by decide⟩

/-- Claim C4: signing a parameter set and then verifying the produced
signature with the same signer succeeds, for every correct signature
primitive, every key, every parameter set and every randomness. -/
theorem sign_verify_roundtrip (S : SigPrimitive) (sg : Signer) (p : Params)
    (r : Nat) (sig : String)
    (h : Signer.Sign S sg p r = .ok sig) :
    Signer.Verify S sg p sig = .ok true := by
  unfold Signer.Sign Signer.signMsg at h
  rcases hs : S.sign sg.key (joinItems (Params.toItems p)) r with _ | der
  · rw [hs] at h
    simp at h
  · rw [hs] at h
    injection h with h
    subst h
    unfold Signer.Verify cryptoVerify
    rw [base64_roundtrip der (S.sign_bytes _ _ _ _ hs)]
    show GoResult.ok (S.verify (S.pubOf sg.key) (joinItems (Params.toItems p)) der) = .ok true
    rw [S.sign_verify _ _ _ _ hs]

/-- Witness for C4 with the concrete toy primitive, key 5 and the
spec's 2.2 scenario parameters. -/
theorem sign_verify_roundtrip_witness :
    Signer.Verify toySig ⟨5⟩ exampleParams "BQ==" = .ok true :=
  sign_verify_roundtrip toySig ⟨5⟩ exampleParams 0 "BQ==" (by decide)

/-- Claim C5: for every public key, item list and signature string, the
verification helper returns a decode error (with a failed verification
and no panic) exactly when the signature is not valid standard base64,
and otherwise returns the primitive's boolean verdict with no error. -/
theorem verify_error_paths (S : SigPrimitive) (key : Nat) (items : List String)
    (sig : String) :
    (base64DecodeString sig = none →
      cryptoVerify S key items sig = .err (.signatureDecode sig)) ∧
    (∀ der, base64DecodeString sig = some der →
      cryptoVerify S key items sig = .ok (S.verify key (joinItems items) der)) ∧
    cryptoVerify S key items sig ≠ .panic ∧
    (∀ e, cryptoVerify S key items sig = .err e → e = .signatureDecode sig) := by
  unfold cryptoVerify
  rcases hd : base64DecodeString sig with _ | der
  · refine ⟨fun _ => rfl, ?_, by simp, ?_⟩
    · intro d hd2
      cases hd2
    · intro e h
      injection h with h
      exact h.symm
  · refine ⟨?_, ?_, by simp, ?_⟩
    · intro h
      cases h
    · intro d hd2
      injection hd2 with hd2
      subst hd2
      rfl
    · intro e h
      simp at h

/-- Witness for C5: a non-base64 signature string yields the decode
error, and a decodable but cryptographically wrong one yields a plain
false verdict. -/
theorem verify_error_paths_witness :
    cryptoVerify toySig 0 [] "!" = .err (.signatureDecode "!") ∧
    cryptoVerify toySig 0 [] "QQ==" = .ok false :=
  ⟨(verify_error_paths toySig 0 [] "!").1 (by decide), by decide⟩

/-- Claim C6 (corrected): the current key loader accepts exactly ONE
block, the EC private-key block; it fails with a format error — never
returning a key — when no block is present, when bytes (such as a second
block) trail the first block, when the type label differs from
`EC PRIVATE KEY`, or when the bytes do not parse as an EC private key;
on success the signer's key pair is the parsed private key together with
the public key derived from it. -/
theorem decodePEM_single_block :
    (∀ d : PemText, d.blocks = [] → decodePEM d = .err .pemNoDataBlock) ∧
    (∀ (d : PemText) (b b2 : PemBlock) (rest : List PemBlock),
      d.blocks = b :: b2 :: rest → decodePEM d = .err .pemTrailingData) ∧
    (∀ (d : PemText) (b : PemBlock),
      d.blocks = [b] → d.trailing = true → decodePEM d = .err .pemTrailingData) ∧
    (∀ (d : PemText) (b : PemBlock),
      d.blocks = [b] → d.trailing = false → b.type ≠ "EC PRIVATE KEY" →
      decodePEM d = .err (.pemUnexpectedBlockType b.type)) ∧
    (∀ (d : PemText) (b : PemBlock),
      d.blocks = [b] → d.trailing = false → b.type = "EC PRIVATE KEY" →
      parseECPrivateKey b.bytes = none → decodePEM d = .err .pemBlockParse) ∧
    (∀ (d : PemText) (sk : Nat),
      d.blocks = [⟨"EC PRIVATE KEY", .ecPriv sk⟩] → d.trailing = false →
      decodePEM d = .ok sk ∧ NewSigner d = .ok ⟨sk⟩) := by
  refine ⟨?_, ?_, ?_, ?_, ?_, ?_⟩
  · intro d hb
    simp [decodePEM, hb]
  · intro d b b2 rest hb
    simp [decodePEM, hb]
  · intro d b hb ht
    simp [decodePEM, hb, ht]
  · intro d b hb ht hty
    simp [decodePEM, hb, ht, hty]
  · intro d b hb ht hty hparse
    simp [decodePEM, hb, ht, hty, hparse]
  · intro d sk hb ht
    constructor
    · simp [decodePEM, hb, ht, parseECPrivateKey]
    · simp [NewSigner, decodePEM, hb, ht, parseECPrivateKey]

/-- Counterexample for C6 as stated: a well-formed pair of one EC
private-key block and one matching public-key block is rejected by the
loader (the second block counts as trailing data), while the claim says
such input is exactly what is accepted. -/
theorem decodePEM_two_blocks_counterexample :
    decodePEM ⟨[⟨"EC PRIVATE KEY", .ecPriv 7⟩, ⟨"PUBLIC KEY", .pkixPub 9⟩], false⟩ =
      .err .pemTrailingData := by
  decide

/-- Claim C7 (corrected): when a supported-version postback lacks the
redownload flag — or a 3.0 postback lacks the win flag — verification
does not substitute a default boolean and does not return an error
value: it crashes with a nil-pointer-dereference panic. -/
theorem missing_flag_panics :
    (∀ (S : SigPrimitive) (p : Postback),
      (p.Version = "2.1" ∨ p.Version = "2.2" ∨ p.Version = "3.0") →
      p.Redownload = none → Postback.verify S p = .panic) ∧
    (∀ (S : SigPrimitive) (p : Postback),
      p.Version = "3.0" → p.DidWin = none → Postback.verify S p = .panic) := by
  constructor
  · intro S p hv hr
    unfold Postback.verify
    rw [if_pos hv]
    unfold Postback.toItems
    rw [hr]
    rfl
  · intro S p hv hw
    unfold Postback.verify
    rw [if_pos (Or.inr (Or.inr hv))]
    rcases hrd : p.Redownload with _ | rd
    · unfold Postback.toItems
      rw [hrd]
      rfl
    · rcases hfid : p.FidelityType with _ | f <;>
        simp [Postback.toItems, GoResult.bind, hrd, hfid, hv, hw]

/-- Counterexample for C7 as stated: a version-2.1 postback with the
redownload flag absent makes verification panic instead of returning a
missing-required-field error value. -/
theorem missing_flag_counterexample :
    Postback.verify toySig noRedownloadPostback = .panic := by
  decide

/-- Claim C9 (corrected): in canonical item sequences, numeric fields
render as base-10 decimal strings without leading zeros, booleans as
"true"/"false", the timestamp as its epoch milliseconds in decimal
(last), and the nonce as the lowercase hyphenated UUID form; the
fidelity item is the decimal rendering of the fidelity integer, which is
"0" or "1" exactly for the two defined fidelity constants — the Go field
is a bare int, so other integers render as themselves. -/
theorem rendering_rules :
    (∀ n : Int, isDecimalString (formatInt n) = true) ∧
    (∀ b : Bool, formatBool b = "true" ∨ formatBool b = "false") ∧
    (∀ u : UUID, u.valid → isUuidForm (uuidString u) = true) ∧
    (∀ f : Int, f = 0 ∨ f = 1 → formatInt f = "0" ∨ formatInt f = "1") ∧
    (∀ p : Params,
      Params.toItems p =
        [p.Version, p.AdNetworkID, formatInt p.CampaignID, formatInt p.ItunesItemID,
         uuidString p.Nonce, formatInt p.SourceAppStoreID] ++
        (if p.Version = "2.2" ∨ p.Version = "3.0"
          then [formatInt p.FidelityType] else []) ++
        [formatInt p.Timestamp]) := by
  refine ⟨formatInt_decimal, ?_, isUuidForm_uuidString, ?_, ?_⟩
  · intro b
    cases b
    · right; rfl
    · left; rfl
  · intro f hf
    rcases hf with h | h <;> subst h
    · left; decide
    · right; decide
  · intro p
    by_cases hv : p.Version = "2.2" ∨ p.Version = "3.0" <;>
      simp [Params.toItems, hv]

/-- Counterexample for C9 as stated: a 2.2 postback whose fidelity field
carries 7 canonicalizes with fidelity item "7", which is neither "0" nor
"1". -/
theorem rendering_rules_counterexample :
    Postback.toItems fidelitySevenPostback =
      .ok ["2.2", "com.example", "42", "525463029", "tx1", "true", "7"] ∧
    ("7" : String) ≠ "0" ∧ ("7" : String) ≠ "1" := by
  refine ⟨by decide, by decide, by decide⟩

end Skadnetwork
